import Mathlib

/-!
Verification of the Hlas travel-insurance payload-collection agent.

Shallow embedding of the three source modules:
  - travel_payload_agent.py  (payload template, question catalog, field
    resolver, answer normalisation/validation, per-turn state machine)
  - intelligent_orchestrator.py (greeting reset and stage dispatch)
  - quote_manager.py (quote-response parsing)

JSON-like payloads are modelled by the inductive type `Value`; the
per-session state kept by the external session store (app.session_manager,
not part of the sources) is modelled from the spec as an explicit `Session`
record threaded through the functions.  Python exceptions that escape a
function are modelled with `Except`, carrying the session state at the
point the exception was raised.
-/

/-- JSON-like values: the payload dictionaries, lists and scalars the agent
manipulates.  Dictionaries are association lists with (as in Python) unique
keys; insertion order is significant and preserved. -/
inductive Value where
  | vNull : Value
  | vBool : Bool → Value
  | vInt : Int → Value
  | vStr : String → Value
  | vList : List Value → Value
  | vObj : List (String × Value) → Value

/-- Python truthiness of a value (used by `if x:` tests in the sources). -/
def truthy : Value → Bool
  | Value.vNull => false
  | Value.vBool b => b
  | Value.vInt n => n != 0
  | Value.vStr s => s != ""
  | Value.vList [] => false
  | Value.vList (_ :: _) => true
  | Value.vObj [] => false
  | Value.vObj (_ :: _) => true

/-- ASCII lower-casing of one character (model of Python str.lower on the
ASCII inputs the agent deals with). -/
def lowerChar (c : Char) : Char :=
  if 'A' ≤ c ∧ c ≤ 'Z' then Char.ofNat (c.toNat + 32) else c

/-- ASCII upper-casing of one character (model of Python str.upper). -/
def upperChar (c : Char) : Char :=
  if 'a' ≤ c ∧ c ≤ 'z' then Char.ofNat (c.toNat - 32) else c

/-- Model of Python str.lower (ASCII range). -/
def pyLower (s : String) : String := ⟨s.data.map lowerChar⟩

/-- Model of Python str.upper (ASCII range). -/
def pyUpper (s : String) : String := ⟨s.data.map upperChar⟩

/-- ASCII whitespace, as stripped by Python str.strip(). -/
def isSpaceChar (c : Char) : Bool :=
  c = ' ' ∨ c = '\t' ∨ c = '\n' ∨ c = '\x0d' ∨ c = '\x0b' ∨ c = '\x0c'

/-- Model of Python str.strip() (ASCII whitespace). -/
def pyStrip (s : String) : String :=
  ⟨((s.data.dropWhile isSpaceChar).reverse.dropWhile isSpaceChar).reverse⟩

/-- Model of Python s.replace("/", "-"): a single-character substitution. -/
def replaceSlashes (s : String) : String :=
  ⟨s.data.map (fun c => if c = '/' then '-' else c)⟩

/-- Model of Python str.isdigit() on ASCII text: non-empty and all digits. -/
def isDigits (s : String) : Bool :=
  s.data ≠ [] ∧ s.data.all Char.isDigit

/-- Numeric value of a digit string (model of Python int() on digit text). -/
def natFromDigits (cs : List Char) : Nat :=
  cs.foldl (fun a c => 10 * a + (c.toNat - 48)) 0

/-- Model of Python str.capitalize(): first character upper-cased, the rest
lower-cased. -/
def pyCapitalize (s : String) : String :=
  match s.data with
  | [] => ""
  | c :: cs => ⟨upperChar c :: cs.map lowerChar⟩

/-- Splitting a dpath key on the "/" separator (model of the path globs the
agent passes to dpath; the catalog keys contain no wildcard and no numeric
list-index components). -/
def splitSlashAux : List Char → List Char → List String
  | [], acc => [⟨acc.reverse⟩]
  | '/' :: cs, acc => ⟨acc.reverse⟩ :: splitSlashAux cs []
  | c :: cs, acc => splitSlashAux cs (c :: acc)

/-- Splits a field path into its components. -/
def splitSlash (s : String) : List String := splitSlashAux s.data []

/-- Model of dpath.get over the payload: walks nested dictionaries along the
path; `none` models the KeyError dpath raises when the path does not resolve
(including when an intermediate value is not a dictionary). -/
def dgetV (v : Value) : List String → Option Value
  | [] => some v
  | k :: rest =>
      match v with
      | Value.vObj fs =>
          match fs.lookup k with
          | some w => dgetV w rest
          | none => none
      | _ => none

/-- dpath.get with a "/"-separated key string. -/
def dget (v : Value) (key : String) : Option Value := dgetV v (splitSlash key)

/-- Model of dpath.set over the payload: replaces the value at an existing
path and silently leaves the structure unchanged when the path does not
resolve (dpath.set changes only elements the glob matches). -/
def dsetV (v : Value) : List String → Value → Value
  | [], nv => nv
  | k :: rest, nv =>
      match v with
      | Value.vObj fs =>
          Value.vObj (fs.map (fun kv => if kv.1 = k then (k, dsetV kv.2 rest nv) else kv))
      | other => other

/-- dpath.set with a "/"-separated key string. -/
def dset (v : Value) (key : String) (nv : Value) : Value := dsetV v (splitSlash key) nv

/-- Python dict assignment d[k] = v: replaces the value in place when the
key exists, appends the new key otherwise. -/
def assocSet1 : List (String × Value) → String → Value → List (String × Value)
  | [], k, v => [(k, v)]
  | (k', v') :: fs, k, v => if k' = k then (k, v) :: fs else (k', v') :: assocSet1 fs k v

/-- Python del d[k]: removes the key from a dictionary. -/
def removeKey : List (String × Value) → String → List (String × Value)
  | [], _ => []
  | kv :: fs, k => if kv.1 = k then removeKey fs k else kv :: removeKey fs k

/-- Whether a dictionary value has the given top-level key (Python `k in d`). -/
def has_key (v : Value) (k : String) : Bool :=
  match v with
  | Value.vObj fs => (fs.lookup k).isSome
  | _ => false

/-- The master JSON payload template (get_payload_template in
travel_payload_agent.py). -/
def get_payload_template : Value :=
  Value.vObj
    [ ("_internal", Value.vObj [("start_date", Value.vNull), ("end_date", Value.vNull)])
    , ("ProductCode", Value.vStr "TVP")
    , ("media", Value.vObj [("wcc", Value.vStr "HLS")])
    , ("travel", Value.vObj
        [ ("policy_type", Value.vNull)
        , ("country_code", Value.vList [])
        , ("number_of_days", Value.vNull)
        , ("zone", Value.vNull)
        , ("with_children", Value.vNull)
        , ("with_spouse", Value.vStr "no")
        , ("with_group_of_adults", Value.vNull)
        , ("with_group_of_households", Value.vStr "no")
        , ("plan", Value.vStr "basic")
        , ("selectedAddOns", Value.vObj
            [ ("preExAddOn", Value.vObj [("selected", Value.vNull), ("preselected", Value.vBool false)])
            , ("lossFFMAddOn", Value.vObj [("selected", Value.vNull), ("preselected", Value.vBool false)])
            , ("flightDelayAddOn", Value.vObj [("selected", Value.vNull), ("preselected", Value.vBool false)])
            ])
        , ("number_of_travellers", Value.vObj
            [ ("total", Value.vNull), ("child", Value.vList []), ("adult", Value.vList [])
            , ("group", Value.vInt 1) ])
        ])
    , ("promotion", Value.vObj [("coupon_code", Value.vNull)])
    , ("leads", Value.vObj [("email", Value.vNull), ("contact_mobile", Value.vNull)])
    , ("CEPParams", Value.vObj [])
    ]

/-- The ordered question catalog (get_question_map in
travel_payload_agent.py): payload key to user-facing prompt. -/
def get_question_map : List (String × String) :=
  [ ("travel/policy_type", "To start, what is the policy type? (Enter \x27S\x27 for Single Trip or \x27A\x27 for Annual)")
  , ("_internal/start_date", "What is your travel start date (YYYY-MM-DD)?")
  , ("_internal/end_date", "And what is your travel end date (YYYY-MM-DD)?")
  , ("travel/country_code", "What is the 3-letter country code for your destination (e.g., \x27MAL\x27)?")
  , ("travel/number_of_travellers/adult", "How many adults are traveling?")
  , ("travel/number_of_travellers/child", "How many children are traveling?")
  , ("travel/selectedAddOns/preExAddOn/selected", "Do you require coverage for pre-existing conditions? (true/false)")
  , ("travel/selectedAddOns/lossFFMAddOn/selected", "Add coverage for Loss of Frequent Flyer Miles? (true/false)")
  , ("travel/selectedAddOns/flightDelayAddOn/selected", "Add the Flight Delay benefit? (true/false)")
  , ("leads/email", "What is your email address?")
  , ("leads/contact_mobile", "What is your 8-digit contact mobile number?")
  , ("promotion/coupon_code", "Finally, do you have a coupon code? (If not, just say \x27no\x27)")
  ]

/-- The catalog keys in their fixed scan order. -/
def question_keys : List String := get_question_map.map Prod.fst

/-- Whether the value equals the empty list or is None (the two "blank"
sentinels the resolver checks with `value is None or value == []`). -/
def is_blank : Value → Bool
  | Value.vNull => true
  | Value.vList [] => true
  | _ => false

/-- Whether the catalog field at `key` still needs to be filled: the path is
missing (dpath KeyError), or holds None, or holds the empty list. -/
def unanswered (payload : Value) (key : String) : Bool :=
  match dget payload key with
  | none => true
  | some v => is_blank v

/-- The field resolver (find_next_question_key in travel_payload_agent.py):
first catalog key, in catalog order, that is still unanswered. -/
def find_next_question_key (payload : Value) : Option String :=
  question_keys.find? (fun k => unanswered payload k)

/-- Leap-year test of the proleptic Gregorian calendar (Python
datetime). -/
def is_leap (y : Nat) : Bool := y % 4 = 0 ∧ (¬ y % 100 = 0 ∨ y % 400 = 0)

/-- Days in a month of the proleptic Gregorian calendar. -/
def days_in_month (y m : Nat) : Nat :=
  if m = 2 then (if is_leap y then 29 else 28)
  else if m = 4 ∨ m = 6 ∨ m = 9 ∨ m = 11 then 30
  else 31

/-- Model of datetime.strptime(s, "%Y-%m-%d"): exactly four year digits,
then "-", one or two month digits, "-", one or two day digits, nothing
else; the resulting numbers must form a valid date with year at least 1
(datetime.MINYEAR).  Returns the parsed (year, month, day). -/
def parse_ymd (s : String) : Option (Nat × Nat × Nat) :=
  match s.data.span Char.isDigit with
  | (ys, '-' :: r2) =>
      match r2.span Char.isDigit with
      | (ms, '-' :: r4) =>
          match r4.span Char.isDigit with
          | (ds, []) =>
              if ys.length = 4 ∧ 1 ≤ ms.length ∧ ms.length ≤ 2 ∧ 1 ≤ ds.length ∧ ds.length ≤ 2 then
                let y := natFromDigits ys
                let mo := natFromDigits ms
                let d := natFromDigits ds
                if 1 ≤ y ∧ 1 ≤ mo ∧ mo ≤ 12 ∧ 1 ≤ d ∧ d ≤ days_in_month y mo then
                  some (y, mo, d)
                else none
              else none
          | _ => none
      | _ => none
  | _ => none

/-- Days before the start of year y (Python date.toordinal helper). -/
def days_before_year (y : Nat) : Nat :=
  365 * (y - 1) + (y - 1) / 4 - (y - 1) / 100 + (y - 1) / 400

/-- Days in year y before the start of month m. -/
def days_before_month (y m : Nat) : Nat :=
  ((List.range (m - 1)).map (fun i => days_in_month y (i + 1))).sum

/-- Model of Python date.toordinal(): day number in the proleptic Gregorian
calendar, with 0001-01-01 as day 1.  Differences of ordinals model
`(end - start).days`. -/
def date_ordinal : Nat × Nat × Nat → Nat
  | (y, m, d) => days_before_year y + days_before_month y m + d

/-- Python bool-as-int coercion (True + 0 == 1). -/
def boolInt (b : Bool) : Int := if b then 1 else 0

/-- Model of the Python expression `v[0] if v else 0` used to read the
adult/child count lists: falsy values give 0, a non-empty list gives its
head, a non-empty string gives its first character, and indexing any other
truthy value raises (`none`). -/
def pyElem0OrZero : Value → Option Value
  | Value.vNull => some (Value.vInt 0)
  | Value.vBool false => some (Value.vInt 0)
  | Value.vBool true => none
  | Value.vInt n => if n = 0 then some (Value.vInt 0) else none
  | Value.vStr s =>
      match s.data with
      | [] => some (Value.vInt 0)
      | c :: _ => some (Value.vStr ⟨[c]⟩)
  | Value.vList [] => some (Value.vInt 0)
  | Value.vList (x :: _) => some x
  | Value.vObj [] => some (Value.vInt 0)
  | Value.vObj (_ :: _) => none

/-- Model of Python `a + b` on payload values: numbers add (bools count as
ints), strings and lists concatenate, anything else raises (`none`). -/
def pyAdd : Value → Value → Option Value
  | Value.vInt a, Value.vInt b => some (Value.vInt (a + b))
  | Value.vInt a, Value.vBool b => some (Value.vInt (a + boolInt b))
  | Value.vBool a, Value.vInt b => some (Value.vInt (boolInt a + b))
  | Value.vBool a, Value.vBool b => some (Value.vInt (boolInt a + boolInt b))
  | Value.vStr a, Value.vStr b => some (Value.vStr (a ++ b))
  | Value.vList a, Value.vList b => some (Value.vList (a ++ b))
  | _, _ => none

/-- Model of Python `v > n` against an int literal: defined for numbers and
bools, raises (`none`) for other types. -/
def pyGtInt : Value → Int → Option Bool
  | Value.vInt a, n => some (n < a)
  | Value.vBool a, n => some (n < boolInt a)
  | _, _ => none

/-- The answer-normalisation chain of run_travel_payload_agent (the
if/elif cascade of its Step 2): policy-type letter mapping, true/false
booleans, the coupon "no" sentinel, digit strings to ints, and the string
fallback. -/
def normalize_answer (last_question_key answer : String) : Value :=
  if last_question_key = "travel/policy_type" then
    if pyLower answer = "s" then Value.vStr "single"
    else if pyLower answer = "a" then Value.vStr "annual"
    else Value.vStr answer
  else if pyLower answer = "true" then Value.vBool true
  else if pyLower answer = "false" then Value.vBool false
  else if pyLower answer = "no" ∧ last_question_key = "promotion/coupon_code" then Value.vStr ""
  else if isDigits answer then Value.vInt (natFromDigits answer.data)
  else Value.vStr answer

/-- Rebuilds the payload after the traveller-count block mutated the
number_of_travellers dictionary (and possibly the travel-level flags). -/
def rebuild_counts (fs tfs nfs : List (String × Value)) : Value :=
  Value.vObj (assocSet1 fs "travel"
    (Value.vObj (assocSet1 tfs "number_of_travellers" (Value.vObj nfs))))

/-- The adult/child-count branch of run_travel_payload_agent: stores the
answer as a single-element list, then recomputes total, with_children and
with_group_of_adults.  Each Python statement of the block can raise; the
surrounding try/except swallows the exception, so a failure keeps every
mutation made before the failing statement. -/
def apply_counts (payload : Value) (isAdult : Bool) (ansV : Value) : Value :=
  match payload with
  | Value.vObj fs =>
      match fs.lookup "travel" with
      | some (Value.vObj tfs) =>
          match tfs.lookup "number_of_travellers" with
          | some (Value.vObj nfs) =>
              let nfs1 := assocSet1 nfs (if isAdult then "adult" else "child") (Value.vList [ansV])
              match nfs1.lookup "adult" with
              | none => rebuild_counts fs tfs nfs1
              | some av =>
                  match pyElem0OrZero av with
                  | none => rebuild_counts fs tfs nfs1
                  | some adults =>
                      match nfs1.lookup "child" with
                      | none => rebuild_counts fs tfs nfs1
                      | some cv =>
                          match pyElem0OrZero cv with
                          | none => rebuild_counts fs tfs nfs1
                          | some children =>
                              match pyAdd adults children with
                              | none => rebuild_counts fs tfs nfs1
                              | some tot =>
                                  let nfs2 := assocSet1 nfs1 "total" tot
                                  match pyGtInt children 0 with
                                  | none => rebuild_counts fs tfs nfs2
                                  | some cpos =>
                                      let tfs1 := assocSet1 tfs "number_of_travellers" (Value.vObj nfs2)
                                      let tfs2 := assocSet1 tfs1 "with_children"
                                        (Value.vStr (if cpos then "yes" else "no"))
                                      match pyGtInt adults 1 with
                                      | none => Value.vObj (assocSet1 fs "travel" (Value.vObj tfs2))
                                      | some amany =>
                                          let tfs3 := assocSet1 tfs2 "with_group_of_adults"
                                            (Value.vStr (if amany then "yes" else "no"))
                                          Value.vObj (assocSet1 fs "travel" (Value.vObj tfs3))
          | _ => payload
      | _ => payload
  | _ => payload

/-- Step 2 of run_travel_payload_agent: normalise the (already
date-validated) answer and write it into the payload.  The country code is
upper-cased and wrapped in a list (upper-casing a non-string raises and is
swallowed, leaving the payload unchanged); the traveller counts go through
`apply_counts`; every other key is written with dpath.set. -/
def process_answer (payload : Value) (last_question_key answer : String) : Value :=
  let ansV := normalize_answer last_question_key answer
  if last_question_key = "travel/number_of_travellers/adult" then
    apply_counts payload true ansV
  else if last_question_key = "travel/number_of_travellers/child" then
    apply_counts payload false ansV
  else if last_question_key = "travel/country_code" then
    match ansV with
    | Value.vStr s => dset payload last_question_key (Value.vList [Value.vStr (pyUpper s)])
    | _ => payload
  else
    dset payload last_question_key ansV

/-- Per-session state held by the external session store.  Modelled from
the spec: app.session_manager is not among the sources; section 6 of the
spec describes it as a per-session record of the collected payload, the
conversation context (last_question_key) and the stage name, read and
written through getSession / setCollectedInfo / updateConversationContext /
setStage. -/
structure Session where
  payload : Option Value
  last_question_key : Option String
  stage : String

/-- Model of `payload.get("_internal", \x7b\x7d).get(...)`: the start/end
date values (None when absent); `none` models the AttributeError raised
when the payload or its _internal entry is not a dictionary. -/
def internal_get (payload : Value) : Option (Value × Value) :=
  match payload with
  | Value.vObj fs =>
      match fs.lookup "_internal" with
      | none => some (Value.vNull, Value.vNull)
      | some (Value.vObj ifs) =>
          some ((ifs.lookup "start_date").getD Value.vNull,
                (ifs.lookup "end_date").getD Value.vNull)
      | some _ => none
  | _ => none

/-- Model of `payload["travel"]["number_of_days"] = n` (a direct dict
assignment, which creates the key when missing); `none` models the
exception raised when payload or its travel entry is not a dictionary. -/
def set_number_of_days (payload : Value) (n : Int) : Option Value :=
  match payload with
  | Value.vObj fs =>
      match fs.lookup "travel" with
      | some (Value.vObj tfs) =>
          some (Value.vObj (assocSet1 fs "travel"
            (Value.vObj (assocSet1 tfs "number_of_days" (Value.vInt n)))))
      | _ => none
  | _ => none

/-- Model of `if "_internal" in payload: del payload["_internal"]`. -/
def del_internal : Value → Value
  | Value.vObj fs => Value.vObj (removeKey fs "_internal")
  | v => v

/-- The finalization acknowledgement returned on the last turn. -/
def final_message : String :=
  "Thank you, I have all the information. Generating your quote now..."

/-- Steps 3 and 4 of run_travel_payload_agent (lines 118-148): find the
next question and either ask it (persisting the payload and recording the
key in the context) or finalize: derive number_of_days from the internal
dates when both are truthy, strip _internal, persist, clear the context
and move the stage to quote_generation.  `Except.error` models an
exception escaping to the orchestrator, carrying the session state at the
point of the raise (the payload was already persisted by Step 3). -/
def finish_turn (payload : Value) (sess : Session) : Except Session (String × Session) :=
  match find_next_question_key payload with
  | some next_key =>
      match get_question_map.lookup next_key with
      | some q =>
          Except.ok (q, { payload := some payload, last_question_key := some next_key,
                          stage := sess.stage })
      | none =>
          Except.error { payload := some payload, last_question_key := sess.last_question_key,
                         stage := sess.stage }
  | none =>
      match internal_get payload with
      | none => Except.error { payload := some payload,
                               last_question_key := sess.last_question_key, stage := sess.stage }
      | some (sv, ev) =>
          if truthy sv ∧ truthy ev then
            match sv, ev with
            | Value.vStr ss, Value.vStr es =>
                match parse_ymd ss, parse_ymd es with
                | some ds, some de =>
                    let num_days : Int :=
                      max ((date_ordinal de : Int) - (date_ordinal ds : Int) + 1) 1
                    match set_number_of_days payload num_days with
                    | some p2 =>
                        Except.ok (final_message,
                          { payload := some (del_internal p2), last_question_key := none,
                            stage := "quote_generation" })
                    | none => Except.error { payload := some payload,
                                             last_question_key := sess.last_question_key,
                                             stage := sess.stage }
                | _, _ => Except.error { payload := some payload,
                                         last_question_key := sess.last_question_key,
                                         stage := sess.stage }
            | _, _ => Except.error { payload := some payload,
                                     last_question_key := sess.last_question_key,
                                     stage := sess.stage }
          else
            Except.ok (final_message,
              { payload := some (del_internal payload), last_question_key := none,
                stage := "quote_generation" })

/-- The re-ask reply built when a date answer fails validation. -/
def invalid_date_reply (question : String) : String :=
  "That doesn\x27t look like a valid date format. Please use YYYY-MM-DD.\n\n" ++ question

/-- One turn of the collection state machine (run_travel_payload_agent):
load or initialise the payload, apply the pending answer unless the
message is a greeting (dates are validated first and on failure the re-ask
reply is returned with no state change at all), then find and ask the next
question or finalize. -/
def run_travel_payload_agent (user_message : String) (sess : Session) :
    Except Session (String × Session) :=
  let payload := sess.payload.getD get_payload_template
  let msg_norm := pyLower (pyStrip user_message)
  match sess.last_question_key with
  | some lqk =>
      if lqk ≠ "" ∧ msg_norm ≠ "hi" ∧ msg_norm ≠ "hello" then
        let answer := pyStrip user_message
        if lqk = "_internal/start_date" ∨ lqk = "_internal/end_date" then
          let date_str := replaceSlashes answer
          match parse_ymd date_str with
          | none =>
              match get_question_map.lookup lqk with
              | some q => Except.ok (invalid_date_reply q, sess)
              | none => Except.error sess
          | some _ => finish_turn (process_answer payload lqk date_str) sess
        else
          finish_turn (process_answer payload lqk answer) sess
      else finish_turn payload sess
  | none => finish_turn payload sess

/-- Consumes a Python numeric-literal digit run `digit (_? digit)*`,
collecting the digits (underscores dropped) and returning the rest. -/
def digitRunAux : List Char → List Char → (List Char × List Char)
  | '_' :: c :: cs, acc => if c.isDigit then digitRunAux cs (c :: acc) else (acc.reverse, '_' :: c :: cs)
  | c :: cs, acc => if c.isDigit then digitRunAux cs (c :: acc) else (acc.reverse, c :: cs)
  | [], acc => (acc.reverse, [])

/-- A digit run starting the given text, or `none` when it does not start
with a digit. -/
def digitRun? (cs : List Char) : Option (List Char × List Char) :=
  match cs with
  | c :: rest => if c.isDigit then some (digitRunAux rest [c]) else none
  | [] => none

/-- A successfully parsed Python float literal: a finite decimal (sign,
mantissa digits, number of fractional digits, decimal exponent), an
infinity, or a NaN. -/
inductive PyFloatLit where
  | finite : Bool → List Char → Nat → Int → PyFloatLit
  | infinite : Bool → PyFloatLit
  | nanLit : PyFloatLit

/-- Parses the optional exponent part of a float literal and finishes the
literal; anything left over after it makes the literal invalid. -/
def parseExpPart (neg : Bool) (mant : List Char) (fracLen : Nat) (rest : List Char) :
    Option PyFloatLit :=
  match rest with
  | [] => some (PyFloatLit.finite neg mant fracLen 0)
  | e :: rest2 =>
      if e = 'e' ∨ e = 'E' then
        let signed : Bool × List Char :=
          match rest2 with
          | '-' :: r => (true, r)
          | '+' :: r => (false, r)
          | r => (false, r)
        match digitRun? signed.2 with
        | some (eds, []) =>
            let ev : Int := natFromDigits eds
            some (PyFloatLit.finite neg mant fracLen (if signed.1 then -ev else ev))
        | _ => none
      else none

/-- Model of Python float(str) literal parsing: optional surrounding
whitespace, optional sign, then inf/infinity/nan (case-insensitive) or a
decimal literal `digits [. digits] [exp]` / `. digits [exp]` with
underscores allowed between digits.  `none` models the ValueError float()
raises on anything else. -/
def parsePyFloat (s : String) : Option PyFloatLit :=
  let cs0 := ((s.data.dropWhile isSpaceChar).reverse.dropWhile isSpaceChar).reverse
  let signed : Bool × List Char :=
    match cs0 with
    | '-' :: r => (true, r)
    | '+' :: r => (false, r)
    | r => (false, r)
  let neg := signed.1
  let cs := signed.2
  let lw := cs.map lowerChar
  if lw = "inf".data ∨ lw = "infinity".data then some (PyFloatLit.infinite neg)
  else if lw = "nan".data then some PyFloatLit.nanLit
  else
    match digitRun? cs with
    | some (ids, rest) =>
        match rest with
        | '.' :: rest2 =>
            match digitRun? rest2 with
            | some (fds, rest3) => parseExpPart neg (ids ++ fds) fds.length rest3
            | none => parseExpPart neg ids 0 rest2
        | _ => parseExpPart neg ids 0 rest
    | none =>
        match cs with
        | '.' :: rest2 =>
            match digitRun? rest2 with
            | some (fds, rest3) => parseExpPart neg fds fds.length rest3
            | none => none
        | _ => none

/-- Whether Python float(v) succeeds: true for ints and bools, for strings
exactly when they parse as a float literal, false (TypeError) for None,
lists and dictionaries. -/
def pyFloatOk : Value → Bool
  | Value.vInt _ => true
  | Value.vBool _ => true
  | Value.vStr s => (parsePyFloat s).isSome
  | _ => false

/-- Round num/den to the nearest integer, ties to even (the rounding used
by "%.2f" formatting). -/
def roundHalfEven (num den : Nat) : Nat :=
  let q := num / den
  let r := num % den
  if 2 * r < den then q
  else if den < 2 * r then q + 1
  else if q % 2 = 0 then q else q + 1

/-- Renders a signed number of cents as a fixed two-decimal string. -/
def centsString (neg : Bool) (cents : Nat) : String :=
  (if neg then "-" else "") ++ toString (cents / 100) ++ "." ++
    (if cents % 100 < 10 then "0" ++ toString (cents % 100) else toString (cents % 100))

/-- ".2f" rendering of a parsed float literal over its exact rational
value.  IEEE-754 double quantization is not modelled (it can differ on
half-way ties and on overflow to infinity); no claim depends on this
success-path rendering. -/
def format2fLit : PyFloatLit → String
  | PyFloatLit.infinite true => "-inf"
  | PyFloatLit.infinite false => "inf"
  | PyFloatLit.nanLit => "nan"
  | PyFloatLit.finite neg mant fracLen exp =>
      let d := natFromDigits mant
      let e2 : Int := exp - fracLen + 2
      let cents := if 0 ≤ e2 then d * 10 ^ e2.toNat else roundHalfEven d (10 ^ (-e2).toNat)
      centsString neg cents

/-- Model of the f-string piece `f"\x7bfloat(final_price):.2f\x7d"`, for the
values `pyFloatOk` accepts. -/
def format2f : Value → String
  | Value.vInt n => (if n < 0 then "-" else "") ++ toString n.natAbs ++ ".00"
  | Value.vBool true => "1.00"
  | Value.vBool false => "0.00"
  | Value.vStr s =>
      match parsePyFloat s with
      | some l => format2fLit l
      | none => ""
  | _ => ""

/-- Model of Python str() as used to interpolate an error entry into the
error reply (quote_manager.py).  Container rendering is simplified (the
quoting of repr is not reproduced); no claim depends on it. -/
def pyStrOf : Value → String
  | Value.vStr s => s
  | Value.vInt n => (if n < 0 then "-" else "") ++ toString n.natAbs
  | Value.vBool true => "True"
  | Value.vBool false => "False"
  | Value.vNull => "None"
  | Value.vList _ => "[...]"
  | Value.vObj _ => "\x7b...\x7d"

/-- Model of `final_payload.get("travel", \x7b\x7d).get("plan", "basic")`
followed by the string methods applied to it: the plan tier as a string,
`none` when the stored plan (or the travel entry) has a type on which the
later .lower()/.capitalize() or .get would raise. -/
def plan_tier_of (final_payload : Value) : Option String :=
  match final_payload with
  | Value.vObj fs =>
      match fs.lookup "travel" with
      | none => some "basic"
      | some (Value.vObj tfs) =>
          match tfs.lookup "plan" with
          | none => some "basic"
          | some (Value.vStr s) => some s
          | some _ => none
      | some _ => none
  | _ => none

/-- The guarded navigation of quote_manager.py lines 70-76: the
discounted_premium value reached through data -> premiums -> plan entry,
`none` when any level is missing, not a dictionary, or a falsy
dictionary. -/
def premium_lookup (quote_response : Value) (plan_lower : String) : Option Value :=
  match quote_response with
  | Value.vObj fs =>
      match (fs.lookup "data").getD Value.vNull with
      | Value.vObj dfs =>
          if dfs.isEmpty then none
          else
            match (dfs.lookup "premiums").getD Value.vNull with
            | Value.vObj pfs =>
                if pfs.isEmpty then none
                else
                  match (pfs.lookup plan_lower).getD Value.vNull with
                  | Value.vObj ifs =>
                      if ifs.isEmpty then none
                      else some ((ifs.lookup "discounted_premium").getD Value.vNull)
                  | _ => none
            | _ => none
      | _ => none
  | _ => none

/-- The price string of the final reply: initialised to the sentinel
"Price not available" and overwritten only when the premium is reached and
float-formattable (quote_manager.py lines 67-81). -/
def price_str_of (quote_response : Value) (plan_lower : String) : String :=
  match premium_lookup quote_response plan_lower with
  | some v => if pyFloatOk v then "S$" ++ format2f v else "Price not available"
  | none => "Price not available"

/-- True when the value equals the given Python string under Python ==
(false for every non-string value, no exception). -/
def isStrEq (v : Value) (s : String) : Bool :=
  match v with
  | Value.vStr t => t = s
  | _ => false

/-- The generic apology of run_quote_generation own except handler. -/
def quote_apology : String := "I\x27m sorry, I ran into an error while generating your quote."

/-- Model of run_quote_generation (quote_manager.py): given the session
collected payload and the (external) quote API response, the reply text
and the stage set_stage is called with (`none` when the stage is left
unchanged).  The internal try/except turns every raise into the apology
reply with stage "initial". -/
def run_quote_generation (final_payload : Option Value) (quote_response : Value) :
    String × Option String :=
  match final_payload with
  | none => ("I seem to have lost your details. Let\x27s start over.", some "payload_collection")
  | some fp =>
      if truthy fp = false then
        ("I seem to have lost your details. Let\x27s start over.", some "payload_collection")
      else
        match quote_response with
        | Value.vObj rfs =>
            let sv := (rfs.lookup "success").getD Value.vNull
            if isStrEq sv "ok" = false ∧ isStrEq sv "true" = false then
              let errs := (rfs.lookup "errors").getD (Value.vList [Value.vStr "Unknown API error"])
              match pyElem0OrZero errs with
              | some e =>
                  if truthy errs then
                    ("Sorry, there was an error getting the quote: " ++ pyStrOf e, none)
                  else (quote_apology, some "initial")
              | none => (quote_apology, some "initial")
            else
              match plan_tier_of fp with
              | none => (quote_apology, some "initial")
              | some plan =>
                  ("Your quote for the **" ++ pyCapitalize plan ++
                     " Plan** has been generated. The premium is **" ++
                     price_str_of quote_response (pyLower plan) ++ "**.",
                   some "initial")
        | _ => (quote_apology, some "initial")

/-- Modelled from the spec: clear_session_for_global_reset
(app.session_manager, not among the sources) destroys the session
collected info and conversation context when a new conversation begins;
the stage is reset to the initial value. -/
def clear_session_for_global_reset (_sess : Session) : Session :=
  { payload := none, last_question_key := none, stage := "initial" }

/-- The generic apology of the orchestrator boundary handler. -/
def critical_error_message : String := "I\x27m sorry, a critical error occurred."

/-- Model of orchestrate_chat (intelligent_orchestrator.py): a greeting
resets the session, sets the stage to payload_collection and runs a
collection turn; otherwise the stage dispatches to the collection agent or
(given the external API response) to quote generation, any unknown stage
falling back to collection.  Exceptions escaping the agent surface as the
generic apology. -/
def orchestrate_chat (user_message : String) (sess : Session) (quote_response : Value) :
    String × Session :=
  if pyLower (pyStrip user_message) = "hi" ∨ pyLower (pyStrip user_message) = "hello" then
    let s1 : Session := { clear_session_for_global_reset sess with stage := "payload_collection" }
    match run_travel_payload_agent user_message s1 with
    | Except.ok (out, s2) => (out, s2)
    | Except.error s2 => (critical_error_message, s2)
  else if sess.stage = "payload_collection" then
    match run_travel_payload_agent user_message sess with
    | Except.ok (out, s2) => (out, s2)
    | Except.error s2 => (critical_error_message, s2)
  else if sess.stage = "quote_generation" then
    let r := run_quote_generation sess.payload quote_response
    (r.1, { sess with stage := r.2.getD sess.stage })
  else
    let s1 : Session := { sess with stage := "payload_collection" }
    match run_travel_payload_agent user_message s1 with
    | Except.ok (out, s2) => (out, s2)
    | Except.error s2 => (critical_error_message, s2)

theorem lookup_assocSet1_self (fs : List (String × Value)) (k : String) (v : Value) :
    (assocSet1 fs k v).lookup k = some v := by
  induction fs with
  | nil => simp [assocSet1, List.lookup]
  | cons kv fs ih =>
      obtain ⟨k', v'⟩ := kv
      by_cases h : k' = k
      · simp [assocSet1, h, List.lookup]
      · simp only [assocSet1, if_neg h, List.lookup]
        have : (k == k') = false := by
          simp [beq_iff_eq]
          exact fun he => h he.symm
        rw [this]
        exact ih

theorem lookup_assocSet1_ne (fs : List (String × Value)) (k k' : String) (v : Value)
    (h : k' ≠ k) : (assocSet1 fs k v).lookup k' = fs.lookup k' := by
  induction fs with
  | nil =>
      have hb : (k' == k) = false := by simp [beq_iff_eq, h]
      simp [assocSet1, List.lookup, hb]
  | cons kv fs ih =>
      obtain ⟨k0, v0⟩ := kv
      by_cases h0 : k0 = k
      · subst h0
        have hb : (k' == k0) = false := by simp [beq_iff_eq, h]
        simp only [assocSet1, if_pos rfl, List.lookup]
        rw [hb]
      · simp only [assocSet1, if_neg h0, List.lookup]
        cases hb : k' == k0 with
        | true => rfl
        | false => exact ih

theorem lookup_map_upd (fs : List (String × Value)) (k : String) (g : Value → Value)
    (w : Value) (h : fs.lookup k = some w) :
    (fs.map (fun kv => if kv.1 = k then (k, g kv.2) else kv)).lookup k = some (g w) := by
  induction fs with
  | nil => simp [List.lookup] at h
  | cons kv fs ih =>
      obtain ⟨k0, v0⟩ := kv
      by_cases h0 : k0 = k
      · subst h0
        simp only [List.lookup, beq_self_eq_true] at h
        injection h with h
        subst h
        rw [List.map_cons]
        have hfa : (if (k0, v0).1 = k0 then (k0, g (k0, v0).2) else (k0, v0)) = (k0, g v0) := by
          simp
        rw [hfa]
        simp [List.lookup]
      · have hb : (k == k0) = false := by
          simp [beq_iff_eq]
          exact fun he => h0 he.symm
        simp only [List.lookup, hb] at h
        rw [List.map_cons]
        have hfa : (if (k0, v0).1 = k then (k, g (k0, v0).2) else (k0, v0)) = (k0, v0) := by
          simp [h0]
        rw [hfa]
        simp only [List.lookup, hb]
        exact ih h

theorem dget_dset (parts : List String) :
    ∀ (p nv : Value), (dgetV p parts).isSome → dgetV (dsetV p parts nv) parts = some nv := by
  induction parts with
  | nil => intro p nv _; rfl
  | cons k rest ih =>
      intro p nv h
      cases p with
      | vObj fs =>
          simp only [dgetV] at h
          cases hfk : fs.lookup k with
          | none => rw [hfk] at h; simp at h
          | some w =>
              rw [hfk] at h
              simp only [dsetV, dgetV]
              rw [lookup_map_upd fs k (fun u => dsetV u rest nv) w hfk]
              exact ih w nv h
      | vNull => simp [dgetV] at h
      | vBool b => simp [dgetV] at h
      | vInt n => simp [dgetV] at h
      | vStr s => simp [dgetV] at h
      | vList xs => simp [dgetV] at h

theorem lookup_removeKey (fs : List (String × Value)) (k : String) :
    (removeKey fs k).lookup k = none := by
  induction fs with
  | nil => rfl
  | cons kv fs ih =>
      by_cases h : kv.1 = k
      · simp only [removeKey, if_pos h]; exact ih
      · simp only [removeKey, if_neg h, List.lookup]
        have : (k == kv.1) = false := by
          simp [beq_iff_eq]
          exact fun he => h he.symm
        rw [this]
        exact ih

theorem lookup_isSome_of_mem_keys {β : Type} (fs : List (String × β)) (k : String)
    (h : k ∈ fs.map Prod.fst) : (fs.lookup k).isSome := by
  induction fs with
  | nil => simp at h
  | cons kv fs ih =>
      simp only [List.map, List.mem_cons] at h
      cases h with
      | inl he => simp [List.lookup, he]
      | inr hm =>
          simp only [List.lookup]
          cases hb : k == kv.1 with
          | true => rfl
          | false => exact ih hm

/-- C1: find_next_question_key scans the catalog in its fixed order and
returns the first field path that is missing, null or the empty list; it
returns none exactly when every catalog field holds a concrete value; on
the fresh template it returns travel/policy_type. -/
theorem find_next_question_key_first_unanswered :
    (∀ payload k, find_next_question_key payload = some k ↔
        unanswered payload k = true ∧
        ∃ pre post, question_keys = pre ++ k :: post ∧
          ∀ k' ∈ pre, unanswered payload k' = false) ∧
    (∀ payload, find_next_question_key payload = none ↔
        ∀ k ∈ question_keys, unanswered payload k = false) ∧
    find_next_question_key get_payload_template = some "travel/policy_type" := by
  refine ⟨?_, ?_, ?_⟩
  · intro payload k
    rw [find_next_question_key, List.find?_eq_some]
    simp
  · intro payload
    rw [find_next_question_key, List.find?_eq_none]
    simp
  · rfl

/-- C10: every key the field resolver returns is present in the question
map, so the prompt lookup of the next-question branch cannot fail: the
turn always completes with the looked-up prompt. -/
theorem find_next_key_has_question (payload : Value) (k : String) (sess : Session)
    (h : find_next_question_key payload = some k) :
    ∃ q, get_question_map.lookup k = some q ∧
      finish_turn payload sess =
        Except.ok (q, { payload := some payload, last_question_key := some k,
                        stage := sess.stage }) := by
  have hmem : k ∈ question_keys := List.mem_of_find?_eq_some h
  have hl : (get_question_map.lookup k).isSome := lookup_isSome_of_mem_keys _ _ hmem
  obtain ⟨q, hq⟩ := Option.isSome_iff_exists.mp hl
  refine ⟨q, hq, ?_⟩
  simp [finish_turn, h, hq]

/-- Witness for C10, at the template payload. -/
theorem find_next_key_has_question_witness :
    ∃ q, get_question_map.lookup "travel/policy_type" = some q ∧
      finish_turn get_payload_template ⟨none, none, "initial"⟩ =
        Except.ok (q, { payload := some get_payload_template,
                        last_question_key := some "travel/policy_type", stage := "initial" }) :=
  find_next_key_has_question get_payload_template "travel/policy_type" ⟨none, none, "initial"⟩ rfl

/-- C2: when the pending question is a date field and the answer (slashes
normalised to dashes) does not parse as YYYY-MM-DD, the turn returns the
re-ask reply built around the original question text and leaves the whole
session (persisted payload and context.last_question_key) unchanged. -/
theorem invalid_date_leaves_state_unchanged (m : String) (sess : Session) (k : String)
    (hk : sess.last_question_key = some k)
    (hdate : k = "_internal/start_date" ∨ k = "_internal/end_date")
    (hh : pyLower (pyStrip m) ≠ "hi")
    (hhe : pyLower (pyStrip m) ≠ "hello")
    (hbad : parse_ymd (replaceSlashes (pyStrip m)) = none) :
    ∃ q, get_question_map.lookup k = some q ∧
      run_travel_payload_agent m sess = Except.ok (invalid_date_reply q, sess) := by
  cases hdate with
  | inl h =>
      subst h
      refine ⟨"What is your travel start date (YYYY-MM-DD)?", rfl, ?_⟩
      rw [run_travel_payload_agent, hk]
      simp [hh, hhe, hbad]
      rfl
  | inr h =>
      subst h
      refine ⟨"And what is your travel end date (YYYY-MM-DD)?", rfl, ?_⟩
      rw [run_travel_payload_agent, hk]
      simp [hh, hhe, hbad]
      rfl

/-- Witness for C2: the answer "tomorrow" to the start-date question. -/
theorem invalid_date_leaves_state_unchanged_witness :
    ∃ q, get_question_map.lookup "_internal/start_date" = some q ∧
      run_travel_payload_agent "tomorrow"
          ⟨none, some "_internal/start_date", "payload_collection"⟩ =
        Except.ok (invalid_date_reply q,
          ⟨none, some "_internal/start_date", "payload_collection"⟩) :=
  invalid_date_leaves_state_unchanged "tomorrow"
    ⟨none, some "_internal/start_date", "payload_collection"⟩ "_internal/start_date"
    rfl (Or.inl rfl) (by decide) (by decide) rfl

theorem has_key_del_internal (v : Value) : has_key (del_internal v) "_internal" = false := by
  cases v with
  | vObj fs => simp [del_internal, has_key, lookup_removeKey]
  | vNull => rfl
  | vBool b => rfl
  | vInt n => rfl
  | vStr s => rfl
  | vList xs => rfl

/-- C6: whenever the finalization turn completes (no catalog field is
unanswered), the persisted final payload has no _internal key, the
context last_question_key is cleared and the stage becomes
quote_generation. -/
theorem finalize_strips_internal (p : Value) (sess sess2 : Session) (out : String)
    (hfind : find_next_question_key p = none)
    (hrun : finish_turn p sess = Except.ok (out, sess2)) :
    sess2.last_question_key = none ∧ sess2.stage = "quote_generation" ∧
    ∃ q, sess2.payload = some q ∧ has_key q "_internal" = false := by
  simp only [finish_turn, hfind] at hrun
  cases hig : internal_get p with
  | none =>
      simp only [hig] at hrun
      exact Except.noConfusion hrun
  | some sev =>
      obtain ⟨sv, ev⟩ := sev
      simp only [hig] at hrun
      by_cases htr : truthy sv = true ∧ truthy ev = true
      · rw [if_pos htr] at hrun
        split at hrun
        · split at hrun
          · split at hrun
            · simp only [Except.ok.injEq, Prod.mk.injEq] at hrun
              obtain ⟨-, hs2⟩ := hrun
              subst hs2
              exact ⟨rfl, rfl, _, rfl, has_key_del_internal _⟩
            · exact Except.noConfusion hrun
          · exact Except.noConfusion hrun
        · exact Except.noConfusion hrun
      · rw [if_neg htr] at hrun
        simp only [Except.ok.injEq, Prod.mk.injEq] at hrun
        obtain ⟨-, hs2⟩ := hrun
        subst hs2
        exact ⟨rfl, rfl, _, rfl, has_key_del_internal _⟩

/-- A conversation prefix: template after policy type, both dates and the
country code have been answered. -/
def demo_payload_4 : Value :=
  process_answer (process_answer (process_answer (process_answer get_payload_template
    "travel/policy_type" "s") "_internal/start_date" "2024-03-01")
    "_internal/end_date" "2024-03-05") "travel/country_code" "mal"

/-- The prefix after the adult count has been answered with 2. -/
def demo_payload_5 : Value :=
  process_answer demo_payload_4 "travel/number_of_travellers/adult" "2"

/-- The prefix after the child count has been answered with 1. -/
def demo_payload_6 : Value :=
  process_answer demo_payload_5 "travel/number_of_travellers/child" "1"

/-- A fully answered payload: every catalog field holds a concrete value. -/
def demo_payload_complete : Value :=
  process_answer (process_answer (process_answer (process_answer (process_answer (process_answer
    demo_payload_6 "travel/selectedAddOns/preExAddOn/selected" "true")
    "travel/selectedAddOns/lossFFMAddOn/selected" "false")
    "travel/selectedAddOns/flightDelayAddOn/selected" "false")
    "leads/email" "a@b.com") "leads/contact_mobile" "12345678") "promotion/coupon_code" "no"

/-- Witness for C6, on the fully answered payload. -/
theorem finalize_strips_internal_witness :
    ∃ out sess2, finish_turn demo_payload_complete
        ⟨some demo_payload_complete, some "promotion/coupon_code", "payload_collection"⟩ =
        Except.ok (out, sess2) ∧
      sess2.last_question_key = none ∧ sess2.stage = "quote_generation" ∧
      ∃ q, sess2.payload = some q ∧ has_key q "_internal" = false := by
  have h := finalize_strips_internal demo_payload_complete
    ⟨some demo_payload_complete, some "promotion/coupon_code", "payload_collection"⟩ _ _ rfl rfl
  exact ⟨_, _, rfl, h⟩

theorem lookup_removeKey_ne (fs : List (String × Value)) (k rk : String) (h : k ≠ rk) :
    (removeKey fs rk).lookup k = fs.lookup k := by
  induction fs with
  | nil => rfl
  | cons kv fs ih =>
      obtain ⟨k0, v0⟩ := kv
      by_cases h0 : k0 = rk
      · subst h0
        have hb : (k == k0) = false := by simp [beq_iff_eq, h]
        simp only [removeKey, if_pos rfl, if_true, eq_self_iff_true, List.lookup, hb, ih]
      · simp only [removeKey, if_neg h0, List.lookup]
        cases hb : k == k0 with
        | true => rfl
        | false => exact ih

theorem dgetV_cons_structure (p : Value) (k : String) (rest : List String) (v : Value)
    (h : dgetV p (k :: rest) = some v) :
    ∃ fs w, p = Value.vObj fs ∧ fs.lookup k = some w ∧ dgetV w rest = some v := by
  cases p with
  | vObj fs =>
      simp only [dgetV] at h
      cases hw : fs.lookup k with
      | none => rw [hw] at h; exact Option.noConfusion h
      | some w =>
          rw [hw] at h
          exact ⟨fs, w, rfl, hw, h⟩
  | vNull => simp [dgetV] at h
  | vBool b => simp [dgetV] at h
  | vInt n => simp [dgetV] at h
  | vStr s => simp [dgetV] at h
  | vList xs => simp [dgetV] at h

theorem parse_ymd_ne_empty (s : String) (d : Nat × Nat × Nat) (h : parse_ymd s = some d) :
    s ≠ "" := by
  intro he
  subst he
  exact Option.noConfusion h

theorem travel_obj_of_find_none (p : Value) (hfind : find_next_question_key p = none) :
    ∃ fs tfs, p = Value.vObj fs ∧ fs.lookup "travel" = some (Value.vObj tfs) := by
  have hmem : "travel/policy_type" ∈ question_keys := by decide
  have h1 := List.find?_eq_none.mp hfind "travel/policy_type" hmem
  rw [Bool.not_eq_true] at h1
  rw [unanswered] at h1
  cases hd : dget p "travel/policy_type" with
  | none => rw [hd] at h1; exact Bool.noConfusion h1
  | some v =>
      have hd' : dgetV p ["travel", "policy_type"] = some v := hd
      obtain ⟨fs, w, hp, hw, hrest⟩ := dgetV_cons_structure p "travel" ["policy_type"] v hd'
      obtain ⟨tfs, w2, hwv, hw2, -⟩ := dgetV_cons_structure w "policy_type" [] v hrest
      exact ⟨fs, tfs, hp, by rw [hw, hwv]⟩

/-- C3: on the finalization turn, with recorded (parsed) start date ds and
end date de, the final payload stores travel/number_of_days =
max((de - ds in days) + 1, 1); an end strictly before the start yields 1,
and the stored value is always positive. -/
theorem number_of_days_inclusive_floor (p : Value) (sess : Session) (ss es : String)
    (ds de : Nat × Nat × Nat)
    (hfind : find_next_question_key p = none)
    (hint : internal_get p = some (Value.vStr ss, Value.vStr es))
    (hs : parse_ymd ss = some ds) (he : parse_ymd es = some de) :
    ∃ sess2, finish_turn p sess = Except.ok (final_message, sess2) ∧
      ∃ q, sess2.payload = some q ∧
        dget q "travel/number_of_days" =
          some (Value.vInt (max ((date_ordinal de : Int) - (date_ordinal ds : Int) + 1) 1)) ∧
        ((date_ordinal de : Int) < (date_ordinal ds : Int) →
          max ((date_ordinal de : Int) - (date_ordinal ds : Int) + 1) 1 = 1) ∧
        0 < max ((date_ordinal de : Int) - (date_ordinal ds : Int) + 1) 1 := by
  obtain ⟨fs, tfs, hp, htr⟩ := travel_obj_of_find_none p hfind
  have hss : truthy (Value.vStr ss) = true := by
    simp [truthy, bne_iff_ne]
    exact parse_ymd_ne_empty ss ds hs
  have hes : truthy (Value.vStr es) = true := by
    simp [truthy, bne_iff_ne]
    exact parse_ymd_ne_empty es de he
  have hsn : set_number_of_days p
      (max ((date_ordinal de : Int) - (date_ordinal ds : Int) + 1) 1) =
      some (Value.vObj (assocSet1 fs "travel"
        (Value.vObj (assocSet1 tfs "number_of_days"
          (Value.vInt (max ((date_ordinal de : Int) - (date_ordinal ds : Int) + 1) 1)))))) := by
    rw [hp, set_number_of_days, htr]
  have hft : finish_turn p sess = Except.ok (final_message,
      { payload := some (del_internal (Value.vObj (assocSet1 fs "travel"
          (Value.vObj (assocSet1 tfs "number_of_days"
            (Value.vInt (max ((date_ordinal de : Int) - (date_ordinal ds : Int) + 1) 1))))))),
        last_question_key := none, stage := "quote_generation" }) := by
    simp only [finish_turn, hfind, hint]
    rw [if_pos ⟨hss, hes⟩]
    simp only [hs, he, hsn]
  refine ⟨_, hft, _, rfl, ?_, ?_, ?_⟩
  · show dgetV (del_internal (Value.vObj (assocSet1 fs "travel"
        (Value.vObj (assocSet1 tfs "number_of_days"
          (Value.vInt (max ((date_ordinal de : Int) - (date_ordinal ds : Int) + 1) 1)))))))
        ["travel", "number_of_days"] = _
    rw [del_internal]
    have hrm : ∀ l : List (String × Value),
        (removeKey l "_internal").lookup "travel" = l.lookup "travel" :=
      fun l => lookup_removeKey_ne l "travel" "_internal" (by decide)
    simp only [dgetV, hrm, lookup_assocSet1_self]
  · intro hlt
    have h1 : (date_ordinal de : Int) - (date_ordinal ds : Int) + 1 ≤ 1 := by omega
    omega
  · have h1 : (1 : Int) ≤ max ((date_ordinal de : Int) - (date_ordinal ds : Int) + 1) 1 :=
      le_max_right _ _
    omega

theorem parse_min_length (s : String) (d : Nat × Nat × Nat) (h : parse_ymd s = some d) :
    8 ≤ s.data.length := by
  rw [parse_ymd] at h
  split at h
  · rename_i ys r2 hsp1
    split at h
    · rename_i ms r4 hsp2
      split at h
      · rename_i ds0 hsp3
        split at h
        · rename_i hlens
          obtain ⟨hy, hm1, hm2, hd1, hd2⟩ := hlens
          rw [List.span_eq_take_drop] at hsp1 hsp2 hsp3
          simp only [Prod.mk.injEq] at hsp1 hsp2 hsp3
          obtain ⟨hys, hr1⟩ := hsp1
          obtain ⟨hms, hr3⟩ := hsp2
          obtain ⟨hds, hr5⟩ := hsp3
          have e1 : s.data.takeWhile Char.isDigit ++ s.data.dropWhile Char.isDigit = s.data :=
            List.takeWhile_append_dropWhile _ _
          have e2 : r2.takeWhile Char.isDigit ++ r2.dropWhile Char.isDigit = r2 :=
            List.takeWhile_append_dropWhile _ _
          have e3 : r4.takeWhile Char.isDigit ++ r4.dropWhile Char.isDigit = r4 :=
            List.takeWhile_append_dropWhile _ _
          rw [hys, hr1] at e1
          rw [hms, hr3] at e2
          rw [hds, hr5] at e3
          have l1 := congrArg List.length e1
          have l2 := congrArg List.length e2
          have l3 := congrArg List.length e3
          simp only [List.length_append, List.length_cons, List.length_append,
            List.length_nil] at l1 l2 l3
          omega
        · exact Option.noConfusion h
      · exact Option.noConfusion h
    · exact Option.noConfusion h
  · exact Option.noConfusion h

theorem parse_ymd_of_digits (s : String) (hd : isDigits s = true) :
    parse_ymd s = none := by
  rw [isDigits] at hd
  simp only [decide_eq_true_eq] at hd
  have hall : ∀ c ∈ s.data, Char.isDigit c := by
    intro c hc
    exact List.all_eq_true.mp hd.2 c hc
  have hdw : s.data.dropWhile Char.isDigit = [] := List.dropWhile_eq_nil_iff.mpr hall
  rw [parse_ymd, List.span_eq_take_drop, hdw]

theorem normalize_answer_of_parsed_date (k s : String) (d : Nat × Nat × Nat)
    (hk : k = "_internal/start_date" ∨ k = "_internal/end_date")
    (hp : parse_ymd s = some d) :
    normalize_answer k s = Value.vStr s := by
  have hlen := parse_min_length s d hp
  have hlow : ∀ t : String, pyLower s = t → s.data.length = t.data.length := by
    intro t ht
    have h2 := congrArg (fun u : String => u.data.length) ht
    simpa [pyLower] using h2
  have h1 : ¬ pyLower s = "true" := by
    intro he
    have h3 := hlow _ he
    have h4 : ("true" : String).data.length = 4 := rfl
    omega
  have h2 : ¬ pyLower s = "false" := by
    intro he
    have h3 := hlow _ he
    have h4 : ("false" : String).data.length = 5 := rfl
    omega
  have h3 : ¬ (pyLower s = "no" ∧ k = "promotion/coupon_code") := by
    intro he
    cases hk with
    | inl hk0 => rw [hk0] at he; exact absurd he.2 (by decide)
    | inr hk0 => rw [hk0] at he; exact absurd he.2 (by decide)
  have h4 : ¬ isDigits s = true := by
    intro he
    rw [parse_ymd_of_digits s he] at hp
    exact Option.noConfusion hp
  have h5 : ¬ k = "travel/policy_type" := by
    cases hk with
    | inl hk0 => rw [hk0]; decide
    | inr hk0 => rw [hk0]; decide
  rw [normalize_answer, if_neg h5, if_neg h1, if_neg h2, if_neg h3, if_neg h4]

/-- C5: a date answer the validator accepts is stored at the date field as
exactly the slash-normalised text of the (stripped) input. -/
theorem date_answer_stored_normalized (p : Value) (k m : String) (d : Nat × Nat × Nat)
    (hk : k = "_internal/start_date" ∨ k = "_internal/end_date")
    (hparse : parse_ymd (replaceSlashes (pyStrip m)) = some d)
    (hpath : (dget p k).isSome) :
    dget (process_answer p k (replaceSlashes (pyStrip m))) k =
      some (Value.vStr (replaceSlashes (pyStrip m))) := by
  have hnorm := normalize_answer_of_parsed_date k _ d hk hparse
  cases hk with
  | inl h =>
      subst h
      rw [process_answer]
      rw [if_neg (by decide), if_neg (by decide), if_neg (by decide), hnorm]
      exact dget_dset _ p _ hpath
  | inr h =>
      subst h
      rw [process_answer]
      rw [if_neg (by decide), if_neg (by decide), if_neg (by decide), hnorm]
      exact dget_dset _ p _ hpath

/-- Witness for C5: the answers "2024-03-05" and "2024/03/05" to the
start-date question are both stored as "2024-03-05". -/
theorem date_answer_stored_normalized_witness :
    dget (process_answer get_payload_template "_internal/start_date"
        (replaceSlashes (pyStrip "2024-03-05"))) "_internal/start_date" =
      some (Value.vStr "2024-03-05") ∧
    dget (process_answer get_payload_template "_internal/start_date"
        (replaceSlashes (pyStrip "2024/03/05"))) "_internal/start_date" =
      some (Value.vStr "2024-03-05") := by
  constructor
  · exact date_answer_stored_normalized get_payload_template "_internal/start_date"
      "2024-03-05" (2024, 3, 5) (Or.inl rfl) rfl rfl
  · exact date_answer_stored_normalized get_payload_template "_internal/start_date"
      "2024/03/05" (2024, 3, 5) (Or.inl rfl) rfl rfl

/-- C7: answering the coupon question with "no" in any letter case stores
the empty string, which the resolver treats as answered (the coupon
question is never returned again), whereas null and the empty list are
treated as unanswered. -/
theorem coupon_no_stores_empty_string (p : Value) (m : String)
    (hno : pyLower (pyStrip m) = "no")
    (hpath : (dget p "promotion/coupon_code").isSome) :
    dget (process_answer p "promotion/coupon_code" (pyStrip m)) "promotion/coupon_code" =
      some (Value.vStr "") ∧
    unanswered (process_answer p "promotion/coupon_code" (pyStrip m))
      "promotion/coupon_code" = false ∧
    find_next_question_key (process_answer p "promotion/coupon_code" (pyStrip m)) ≠
      some "promotion/coupon_code" ∧
    is_blank Value.vNull = true ∧ is_blank (Value.vList []) = true ∧
    is_blank (Value.vStr "") = false := by
  have hnorm : normalize_answer "promotion/coupon_code" (pyStrip m) = Value.vStr "" := by
    rw [normalize_answer, hno]
    rfl
  have hst : dget (process_answer p "promotion/coupon_code" (pyStrip m))
      "promotion/coupon_code" = some (Value.vStr "") := by
    rw [process_answer]
    rw [if_neg (by decide), if_neg (by decide), if_neg (by decide), hnorm]
    exact dget_dset _ p _ hpath
  have hun : unanswered (process_answer p "promotion/coupon_code" (pyStrip m))
      "promotion/coupon_code" = false := by
    rw [unanswered, hst]
    rfl
  refine ⟨hst, hun, ?_, rfl, rfl, rfl⟩
  intro h2
  have h3 := List.find?_some h2
  rw [hun] at h3
  exact Bool.noConfusion h3

/-- Witness for C7: the answer "No" on the template payload. -/
theorem coupon_no_stores_empty_string_witness :
    dget (process_answer get_payload_template "promotion/coupon_code" (pyStrip "No"))
      "promotion/coupon_code" = some (Value.vStr "") ∧
    unanswered (process_answer get_payload_template "promotion/coupon_code" (pyStrip "No"))
      "promotion/coupon_code" = false ∧
    find_next_question_key (process_answer get_payload_template "promotion/coupon_code"
      (pyStrip "No")) ≠ some "promotion/coupon_code" ∧
    is_blank Value.vNull = true ∧ is_blank (Value.vList []) = true ∧
    is_blank (Value.vStr "") = false :=
  coupon_no_stores_empty_string get_payload_template "No" rfl rfl

/-- Witness for C3: the fully answered payload, start 2024-03-01 and end
2024-03-05, stores number_of_days = 5. -/
theorem number_of_days_inclusive_floor_witness :
    ∃ sess2, finish_turn demo_payload_complete
        ⟨some demo_payload_complete, some "promotion/coupon_code", "payload_collection"⟩ =
      Except.ok (final_message, sess2) ∧
      ∃ q, sess2.payload = some q ∧
        dget q "travel/number_of_days" = some (Value.vInt 5) := by
  have h := number_of_days_inclusive_floor demo_payload_complete
    ⟨some demo_payload_complete, some "promotion/coupon_code", "payload_collection"⟩
    "2024-03-01" "2024-03-05" (2024, 3, 1) (2024, 3, 5) rfl rfl rfl rfl
  obtain ⟨sess2, hft, q, hpq, hnd, -, -⟩ := h
  have hmax : max ((date_ordinal (2024, 3, 5) : Int) - (date_ordinal (2024, 3, 1) : Int) + 1) 1
      = 5 := by decide
  rw [hmax] at hnd
  exact ⟨sess2, hft, q, hpq, hnd⟩

/-- C8: a greeting message (trimmed, lower-cased "hi" or "hello") resets
the session: the collected payload reverts to the fresh template, the
stage becomes payload_collection, and the reply is the catalog first
prompt (the policy-type question). -/
theorem greeting_resets_session (m : String) (sess : Session) (resp : Value)
    (hg : pyLower (pyStrip m) = "hi" ∨ pyLower (pyStrip m) = "hello") :
    orchestrate_chat m sess resp =
      ("To start, what is the policy type? (Enter \x27S\x27 for Single Trip or \x27A\x27 for Annual)",
       { payload := some get_payload_template, last_question_key := some "travel/policy_type",
         stage := "payload_collection" }) := by
  rw [orchestrate_chat, if_pos hg]
  rfl

/-- Witness for C8: "hello" on a mid-collection session. -/
theorem greeting_resets_session_witness :
    orchestrate_chat "hello"
        ⟨some demo_payload_5, some "travel/number_of_travellers/child", "payload_collection"⟩
        Value.vNull =
      ("To start, what is the policy type? (Enter \x27S\x27 for Single Trip or \x27A\x27 for Annual)",
       { payload := some get_payload_template, last_question_key := some "travel/policy_type",
         stage := "payload_collection" }) :=
  greeting_resets_session "hello"
    ⟨some demo_payload_5, some "travel/number_of_travellers/child", "payload_collection"⟩
    Value.vNull (Or.inr rfl)

/-- C9: on a successful quote response, the price is looked up under
data.premiums[plan lower-cased].discounted_premium; when the navigation
fails at any level, or the premium value is not float-formattable, the
reply reports the "Price not available" sentinel (and the turn completes
normally, resetting the stage to initial). -/
theorem quote_price_sentinel (fp : Value) (rfs : List (String × Value)) (plan : String)
    (htruthy : truthy fp = true)
    (hplan : plan_tier_of fp = some plan)
    (hsucc : isStrEq ((rfs.lookup "success").getD Value.vNull) "ok" = true ∨
             isStrEq ((rfs.lookup "success").getD Value.vNull) "true" = true)
    (hfail : premium_lookup (Value.vObj rfs) (pyLower plan) = none ∨
       ∃ v, premium_lookup (Value.vObj rfs) (pyLower plan) = some v ∧ pyFloatOk v = false) :
    run_quote_generation (some fp) (Value.vObj rfs) =
      ("Your quote for the **" ++ pyCapitalize plan ++
         " Plan** has been generated. The premium is **Price not available**.", some "initial") := by
  have hps : price_str_of (Value.vObj rfs) (pyLower plan) = "Price not available" := by
    rw [price_str_of]
    cases hfail with
    | inl h => rw [h]
    | inr h =>
        obtain ⟨v, hv, hok⟩ := h
        rw [hv]
        simp only [hok, Bool.false_eq_true, if_false]
  simp only [run_quote_generation]
  rw [if_neg (by simp [htruthy])]
  rw [if_neg (by
    intro hcon
    cases hsucc with
    | inl h => rw [hcon.1] at h; exact Bool.noConfusion h
    | inr h => rw [hcon.2] at h; exact Bool.noConfusion h)]
  simp only [hplan, hps]
  rw [String.append_assoc, String.append_assoc]
  rfl

/-- Witness for C9: a successful response with no data entry at all. -/
theorem quote_price_sentinel_witness :
    run_quote_generation (some (Value.vObj [("travel", Value.vObj [("plan", Value.vStr "basic")])]))
        (Value.vObj [("success", Value.vStr "true")]) =
      ("Your quote for the **Basic Plan** has been generated. The premium is **Price not available**.",
       some "initial") :=
  quote_price_sentinel (Value.vObj [("travel", Value.vObj [("plan", Value.vStr "basic")])])
    [("success", Value.vStr "true")] "basic" rfl rfl (Or.inr rfl) (Or.inl rfl)


/-- The catalog key of the adult or child count question. -/
def count_key (isAdult : Bool) : String :=
  if isAdult then "travel/number_of_travellers/adult" else "travel/number_of_travellers/child"

/-- The dictionary field holding the other count. -/
def other_count_field (isAdult : Bool) : String := if isAdult then "child" else "adult"

/-- C4: applying a traveller-count answer that normalises to the integer n
stores it as the single-element list [n]; the total is recomputed as
adults + children (the other count read from its list, an empty list or
null counting as 0), with_children is "yes" exactly when children > 0 and
with_group_of_adults is "yes" exactly when adults > 1. -/
theorem traveller_counts_recomputed (fs tfs nfs : List (String × Value))
    (answer : String) (isAdult : Bool) (n c : Int) (ov : Value)
    (ht : fs.lookup "travel" = some (Value.vObj tfs))
    (hn : tfs.lookup "number_of_travellers" = some (Value.vObj nfs))
    (hnorm : normalize_answer (count_key isAdult) answer = Value.vInt n)
    (hov : nfs.lookup (other_count_field isAdult) = some ov)
    (hc : pyElem0OrZero ov = some (Value.vInt c)) :
    dget (process_answer (Value.vObj fs) (count_key isAdult) answer) (count_key isAdult) =
      some (Value.vList [Value.vInt n]) ∧
    dget (process_answer (Value.vObj fs) (count_key isAdult) answer)
      "travel/number_of_travellers/total" =
      some (Value.vInt ((if isAdult then n else c) + (if isAdult then c else n))) ∧
    dget (process_answer (Value.vObj fs) (count_key isAdult) answer) "travel/with_children" =
      some (Value.vStr (if 0 < (if isAdult then c else n) then "yes" else "no")) ∧
    dget (process_answer (Value.vObj fs) (count_key isAdult) answer)
      "travel/with_group_of_adults" =
      some (Value.vStr (if 1 < (if isAdult then n else c) then "yes" else "no")) := by
  have hne_total_adult : ∀ (l : List (String × Value)) (v : Value),
      (assocSet1 l "total" v).lookup "adult" = l.lookup "adult" :=
    fun l v => lookup_assocSet1_ne l "total" "adult" v (by decide)
  have hne_total_child : ∀ (l : List (String × Value)) (v : Value),
      (assocSet1 l "total" v).lookup "child" = l.lookup "child" :=
    fun l v => lookup_assocSet1_ne l "total" "child" v (by decide)
  have hne_adult_child : ∀ (l : List (String × Value)) (v : Value),
      (assocSet1 l "adult" v).lookup "child" = l.lookup "child" :=
    fun l v => lookup_assocSet1_ne l "adult" "child" v (by decide)
  have hne_child_adult : ∀ (l : List (String × Value)) (v : Value),
      (assocSet1 l "child" v).lookup "adult" = l.lookup "adult" :=
    fun l v => lookup_assocSet1_ne l "child" "adult" v (by decide)
  have hne_wga_nt : ∀ (l : List (String × Value)) (v : Value),
      (assocSet1 l "with_group_of_adults" v).lookup "number_of_travellers" =
        l.lookup "number_of_travellers" :=
    fun l v => lookup_assocSet1_ne l "with_group_of_adults" "number_of_travellers" v (by decide)
  have hne_wc_nt : ∀ (l : List (String × Value)) (v : Value),
      (assocSet1 l "with_children" v).lookup "number_of_travellers" =
        l.lookup "number_of_travellers" :=
    fun l v => lookup_assocSet1_ne l "with_children" "number_of_travellers" v (by decide)
  have hne_wga_wc : ∀ (l : List (String × Value)) (v : Value),
      (assocSet1 l "with_group_of_adults" v).lookup "with_children" = l.lookup "with_children" :=
    fun l v => lookup_assocSet1_ne l "with_group_of_adults" "with_children" v (by decide)
  cases isAdult with
  | true =>
      simp only [count_key, other_count_field, if_true] at hnorm hov ⊢
      have hres : process_answer (Value.vObj fs) "travel/number_of_travellers/adult" answer =
          Value.vObj (assocSet1 fs "travel" (Value.vObj (assocSet1 (assocSet1 (assocSet1 tfs "number_of_travellers" (Value.vObj (assocSet1 (assocSet1 nfs "adult" (Value.vList [Value.vInt n])) "total" (Value.vInt (n + c))))) "with_children" (Value.vStr (if 0 < c then "yes" else "no"))) "with_group_of_adults" (Value.vStr (if 1 < n then "yes" else "no"))))) := by
        have h0 : pyElem0OrZero (Value.vList [Value.vInt n]) = some (Value.vInt n) := rfl
        simp only [process_answer, hnorm, if_true]
        simp only [apply_counts, if_true, ht, hn, lookup_assocSet1_self, hne_adult_child, hov,
          h0, hc, pyAdd, pyGtInt, decide_eq_true_eq]
      rw [hres]
      refine ⟨?_, ?_, ?_, ?_⟩
      · show dgetV _ ["travel", "number_of_travellers", "adult"] = _
        simp only [dgetV, lookup_assocSet1_self, hne_wga_nt, hne_wc_nt, hne_total_adult]
      · show dgetV _ ["travel", "number_of_travellers", "total"] = _
        simp only [dgetV, lookup_assocSet1_self, hne_wga_nt, hne_wc_nt]
      · show dgetV _ ["travel", "with_children"] = _
        simp only [dgetV, lookup_assocSet1_self, hne_wga_wc]
      · show dgetV _ ["travel", "with_group_of_adults"] = _
        simp only [dgetV, lookup_assocSet1_self]
  | false =>
      simp only [count_key, other_count_field, Bool.false_eq_true, if_false] at hnorm hov ⊢
      have hres : process_answer (Value.vObj fs) "travel/number_of_travellers/child" answer =
          Value.vObj (assocSet1 fs "travel" (Value.vObj (assocSet1 (assocSet1 (assocSet1 tfs "number_of_travellers" (Value.vObj (assocSet1 (assocSet1 nfs "child" (Value.vList [Value.vInt n])) "total" (Value.vInt (c + n))))) "with_children" (Value.vStr (if 0 < n then "yes" else "no"))) "with_group_of_adults" (Value.vStr (if 1 < c then "yes" else "no"))))) := by
        have h0 : pyElem0OrZero (Value.vList [Value.vInt n]) = some (Value.vInt n) := rfl
        have hkne : ¬("travel/number_of_travellers/child" = "travel/number_of_travellers/adult") :=
          by decide
        simp only [process_answer, hnorm, if_true]
        simp only [apply_counts, hkne, Bool.false_eq_true, if_false, if_true, ht, hn,
          lookup_assocSet1_self, hne_child_adult, hov, h0, hc, pyAdd, pyGtInt,
          decide_eq_true_eq]
      rw [hres]
      refine ⟨?_, ?_, ?_, ?_⟩
      · show dgetV _ ["travel", "number_of_travellers", "child"] = _
        simp only [dgetV, lookup_assocSet1_self, hne_wga_nt, hne_wc_nt, hne_total_child]
      · show dgetV _ ["travel", "number_of_travellers", "total"] = _
        simp only [dgetV, lookup_assocSet1_self, hne_wga_nt, hne_wc_nt]
      · show dgetV _ ["travel", "with_children"] = _
        simp only [dgetV, lookup_assocSet1_self, hne_wga_wc]
      · show dgetV _ ["travel", "with_group_of_adults"] = _
        simp only [dgetV, lookup_assocSet1_self]

/-- The top-level fields of demo_payload_5. -/
def demo5_fields : List (String × Value) :=
  match demo_payload_5 with
  | Value.vObj fs => fs
  | _ => []

/-- The travel group of demo_payload_5. -/
def demo5_travel : List (String × Value) :=
  match demo5_fields.lookup "travel" with
  | some (Value.vObj tfs) => tfs
  | _ => []

/-- The number_of_travellers group of demo_payload_5. -/
def demo5_nt : List (String × Value) :=
  match demo5_travel.lookup "number_of_travellers" with
  | some (Value.vObj nfs) => nfs
  | _ => []

/-- Witness for C4: answering adult = 2 and then child = 1 on the partly
filled payload yields child [1], total 3 and both flags "yes". -/
theorem traveller_counts_recomputed_witness :
    demo_payload_5 = process_answer demo_payload_4 "travel/number_of_travellers/adult" "2" ∧
    dget (process_answer demo_payload_5 "travel/number_of_travellers/child" "1")
      "travel/number_of_travellers/child" = some (Value.vList [Value.vInt 1]) ∧
    dget (process_answer demo_payload_5 "travel/number_of_travellers/child" "1")
      "travel/number_of_travellers/total" = some (Value.vInt 3) ∧
    dget (process_answer demo_payload_5 "travel/number_of_travellers/child" "1")
      "travel/with_children" = some (Value.vStr "yes") ∧
    dget (process_answer demo_payload_5 "travel/number_of_travellers/child" "1")
      "travel/with_group_of_adults" = some (Value.vStr "yes") := by
  have hp : demo_payload_5 = Value.vObj demo5_fields := rfl
  have h := traveller_counts_recomputed demo5_fields demo5_travel demo5_nt "1" false 1 2
    (Value.vList [Value.vInt 2]) rfl rfl rfl rfl rfl
  rw [hp]
  exact ⟨rfl, h.1, h.2.1, h.2.2.1, h.2.2.2⟩
